import Mathlib

/-!
Shallow embedding of the DataImport repository's import-flow controller
(`src/dataimport/DataImportPopup.py`) and host shell (`src/main.py`).

The repository contains two copies of the popup module; `src/dataimport/`
is the current one (it carries the cancel check, the unsupported-extension
message box and the skip-rows validation described by the specification)
and is the version embedded here.  GUI widgets are modelled by the state
they carry: an options frame is its user-editable field texts, the preview
table view is the column/row data last built into it, and the Import
button is the data frame bound to its callback.  The external pandas
parsers are oracles supplied in an `Env`; a parser call that raises is an
oracle answering `err`.
-/

namespace DataImport

/-- A parsed tabular result: `list(df.columns)` and `df.values.tolist()`.
Cell values are kept abstract as strings; no claim depends on their type. -/
structure Table where
  cols : List String
  rows : List (List String)
deriving DecidableEq, Repr

/-- The table view's initial contents: `coldata=[], rowdata=[]`. -/
def emptyTable : Table := ⟨[], []⟩

/-- Outcome of one external parser call: a table, or a raised exception. -/
inductive ParseResult where
  | ok (t : Table)
  | err
deriving DecidableEq, Repr

/-- Oracles for the external collaborators: `pd.read_csv`, `pd.read_excel`,
`pd.read_spss`, and `pd.ExcelFile(path).sheet_names` (which can itself
raise, hence `Except`). -/
structure Env where
  readCsv : String → String → Option String → ParseResult
  readExcel : String → String → Int → Option String → ParseResult
  readSpss : String → ParseResult
  sheetNames : String → Except Unit (List String)

/-- Python's `str.endswith`: a plain suffix test on the whole string. -/
def endswith (s suf : String) : Bool := suf.data.isSuffixOf s.data

/-- File kinds distinguished by the controller. -/
inductive FileKind where
  | csv
  | excel
  | spss
  | unknown
deriving DecidableEq, Repr

/-- The extension chain `if filepath.endswith(".csv") ... elif ".xlsx" ...
elif ".sav" ... else ...` that the source repeats verbatim in both
`__select_file` and `__import_preview_data`, factored once. -/
def fileKind (p : String) : FileKind :=
  if endswith p ".csv" then .csv
  else if endswith p ".xlsx" then .excel
  else if endswith p ".sav" then .spss
  else .unknown

/-- `CSVOptionsFrame.separator_options` lookup; `none` is the `KeyError`
raised when the editable combobox text is not one of the four keys. -/
def sepLookup (k : String) : Option String :=
  if k = "," then some ","
  else if k = ";" then some ";"
  else if k = "Space" then some " "
  else if k = "Tab" then some "\t"
  else none

/-- `get_na_value`: the literal text `"Default"` means `None`. -/
def naValue (s : String) : Option String :=
  if s = "Default" then none else some s

/-- Decimal digits of a string read as a natural number. -/
def digitsToNat (l : List Char) : Nat :=
  l.foldl (fun n c => 10 * n + (c.toNat - '0'.toNat)) 0

/-- `IntVar.get` on the skip-rows entry: Tcl parses the entry text as an
integer (optional surrounding blanks, optional sign, decimal digits;
Tcl's radix prefixes are not needed by any claim) and raises `TclError`
(`none`) on anything else.  Note a negative integer parses successfully. -/
def parseIntStr (s : String) : Option Int :=
  let l := (((s.data.dropWhile (fun c => c = ' ')).reverse.dropWhile
      (fun c => c = ' ')).reverse)
  match l with
  | [] => none
  | '-' :: ds =>
    if ds ≠ [] ∧ ds.all Char.isDigit then some (-(digitsToNat ds : Int)) else none
  | '+' :: ds =>
    if ds ≠ [] ∧ ds.all Char.isDigit then some (digitsToNat ds : Int) else none
  | ds =>
    if ds.all Char.isDigit then some (digitsToNat ds : Int) else none

/-- The type-specific options frame, carried as its user-editable texts.
`excelFrame` also records the workbook's sheet-name list used to build it. -/
inductive OptionsFrame where
  | csvFrame (sepText naText : String)
  | excelFrame (sheetText skipText naText : String) (sheets : List String)
  | spssFrame
deriving DecidableEq, Repr

/-- `DataImportPopup`'s mutable state.  `filepath = none` models the
attribute not existing before the first selection; `optionsPacked` is
whether the current options frame is packed (visible) — `forget()` hides
it without clearing the attribute; `importBtn` is the data frame bound to the
Import button's callback (`none` before the first successful parse);
`errors` accumulates the message-box texts shown to the user. -/
structure PopupState where
  filepath : Option String
  optionsFrame : Option OptionsFrame
  optionsPacked : Bool
  showPreview : Bool
  preview : Table
  importBtn : Option Table
  dataFrame : Option Table
  errors : List String
deriving DecidableEq, Repr

/-- State built by `DataImportPopup.__init__`. -/
def initialState : PopupState :=
  { filepath := none
    optionsFrame := none
    optionsPacked := false
    showPreview := true
    preview := emptyTable
    importBtn := none
    dataFrame := none
    errors := [] }

/-- Message shown by `__import_preview_data` when `get_skiprows` raises. -/
def skipRowsMsg : String := "Skip rows must be a number."

/-- Message shown by `__select_file` for an unrecognized extension. -/
def unsupportedMsg : String :=
  "Selected file must be one of the following file types: csv, xlsx, .sav."

/-- Tail of `__import_preview_data` after a successful parse: rebuild the
table view (with the parsed data when the preview box is checked, empty
otherwise) and replace the Import button, binding the freshly parsed
data frame to its callback. -/
def applySuccess (t : Table) (s : PopupState) : PopupState :=
  { s with
    preview := if s.showPreview then t else emptyTable
    importBtn := some t }

/-- `DataImportPopup.__import_preview_data`.  Every parser call sits in a
`try/except` that silently returns, so the handler is total; the only
surfaced error is the skip-rows message box from the inner `try` around
`get_skiprows` (an `AttributeError` from a wrong-shaped frame lands in
that same inner `try`).  The `filepath = none` branch is unreachable in
the real flow since the buttons invoking this handler are created only
after a file was chosen. -/
def importPreviewData (env : Env) (s : PopupState) : PopupState :=
  match s.filepath with
  | none => s
  | some path =>
    match fileKind path with
    | .csv =>
      match s.optionsFrame with
      | some (.csvFrame sepText naText) =>
        match sepLookup sepText with
        | some sep =>
          match env.readCsv path sep (naValue naText) with
          | .ok t => applySuccess t s
          | .err => s
        | none => s
      | _ => s
    | .excel =>
      match s.optionsFrame with
      | some (.excelFrame sheetText skipText naText _) =>
        match parseIntStr skipText with
        | none => { s with errors := s.errors ++ [skipRowsMsg] }
        | some k =>
          match env.readExcel path sheetText k (naValue naText) with
          | .ok t => applySuccess t s
          | .err => s
      | _ => { s with errors := s.errors ++ [skipRowsMsg] }
    | .spss =>
      match env.readSpss path with
      | .ok t => applySuccess t s
      | .err => s
    | .unknown => s

/-- Result of an event handler: normal return, or an uncaught exception
escaping the handler with the mutations made before the raise. -/
inductive SelectResult where
  | ok (s : PopupState)
  | raised (s : PopupState)
deriving DecidableEq, Repr

/-- The popup state after the handler, whether or not it raised. -/
def resultState : SelectResult → PopupState
  | .ok s => s
  | .raised s => s

/-- Whether an uncaught exception escaped the handler. -/
def isRaised : SelectResult → Bool
  | .ok _ => false
  | .raised _ => true

/-- `DataImportPopup.__select_file` with `picked` the path returned by the
file dialog (`""` on cancel).  The stored path is updated and any prior
options frame forgotten before the extension is examined; for `.xlsx`,
`pd.ExcelFile(picked).sheet_names` and the `sheet_names[0]` access in
`ExcelOptionsFrame.__init__` run outside any `try`, so their exceptions
escape the handler. -/
def selectFile (env : Env) (picked : String) (s : PopupState) : SelectResult :=
  if picked = "" then .ok s
  else
    let s1 := { s with filepath := some picked }
    let s2 := if s1.optionsFrame.isSome then { s1 with optionsPacked := false } else s1
    match fileKind picked with
    | .csv =>
      let s3 := { s2 with optionsFrame := some (.csvFrame "," "Default")
                          optionsPacked := true }
      .ok (importPreviewData env s3)
    | .excel =>
      match env.sheetNames picked with
      | .error _ => .raised s2
      | .ok sheets =>
        match sheets with
        | [] => .raised s2
        | first :: _ =>
          let s3 := { s2 with optionsFrame := some (.excelFrame first "0" "Default" sheets)
                              optionsPacked := true }
          .ok (importPreviewData env s3)
    | .spss =>
      let s3 := { s2 with optionsFrame := some .spssFrame, optionsPacked := true }
      .ok (importPreviewData env s3)
    | .unknown =>
      .ok { s2 with errors := s2.errors ++ [unsupportedMsg] }

/-- Clicking the Import button (`__return_data` on the bound data frame):
store the bound table as the result and close the window.  With no button
yet, there is nothing to click. -/
def commit (s : PopupState) : PopupState :=
  match s.importBtn with
  | some t => { s with dataFrame := some t }
  | none => s

/-- The "Show data preview" checkbutton has a `variable` but no `command`:
toggling it only flips the `IntVar`. -/
def toggleShowPreview (s : PopupState) : PopupState :=
  { s with showPreview := !s.showPreview }

/-- The character class `[ \w-]` of the filename regex (ASCII reading of
`\w`, which covers every path in the specification and the claims). -/
def wordChar (c : Char) : Bool :=
  c = ' ' || c.isAlpha || c.isDigit || c = '_' || c = '-'

/-- The lazy quantifier `[ \w-]+?(?=\.)` tried at one start position: take
in-class characters one at a time, stopping at the first point where the
lookahead sees a literal dot; fail if the class run ends without one. -/
def matchLazy : List Char → Option (List Char)
  | [] => none
  | c :: rest =>
    if wordChar c then
      if rest.head? = some '.' then some [c]
      else
        match matchLazy rest with
        | some m => some (c :: m)
        | none => none
    else none

/-- `re.search`: the match at the leftmost start position that admits one. -/
def reSearch : List Char → Option (List Char)
  | [] => none
  | c :: rest =>
    match matchLazy (c :: rest) with
    | some m => some m
    | none => reSearch rest

/-- The filename extraction in `DataImportPopup.show`: `re.search` of the
pattern `[ \w-]+?(?=\.)` over the WHOLE path; a failed search (`.group`
on `None`) is swallowed by the bare `except` into `None`. -/
def extractName (p : String) : Option String :=
  (reSearch p.data).map (fun l => ⟨l⟩)

/-- `show`'s returned `data_name`: extraction applied to `self.filepath`;
the attribute missing (no file ever chosen) also lands in the `except`. -/
def dataName (s : PopupState) : Option String :=
  match s.filepath with
  | some p => extractName p
  | none => none

/-- The dictionary returned by `DataImportPopup.show` after the window
closes: the committed data frame (or `none`) and the derived name. -/
def showResult (s : PopupState) : Option Table × Option String :=
  (s.dataFrame, dataName s)

/-- Claim-side definition, following the spec's words for the committed
name: the selected file's base name (text after the last path separator)
up to its first literal dot, absent when no dot is found.  Used only to be
compared with `extractName`, which embeds the source. -/
def specBaseDotName (p : String) : Option String :=
  let b := (p.data.reverse.takeWhile (fun c => c ≠ '/')).reverse
  if b.contains '.' then some ⟨b.takeWhile (fun c => c ≠ '.')⟩ else none

/-- The host shell's state: the persistent table view in `main.py`. -/
structure HostState where
  displayed : Table
deriving DecidableEq, Repr

/-- `DataImportApp.open_import_window`, after the popup returned `res`:
rebuild the table view from the result only when it is not `None`. -/
def openImportWindow (res : Option Table) (h : HostState) : HostState :=
  match res with
  | none => h
  | some t => { h with displayed := t }

/-- The user interactions available while the popup is open, short of
clicking Import: choosing a file, clicking Refresh Preview, editing the
options-frame fields, and toggling the preview checkbutton. -/
inductive FlowStep where
  | select (env : Env) (picked : String)
  | refresh (env : Env)
  | setOpts (o : Option OptionsFrame)
  | toggle

/-- Effect of one interaction on the popup state (a handler that raises
leaves the state of the mutations made before the raise; the toolkit's
event loop catches the exception outside this code). -/
def stepRun (s : PopupState) : FlowStep → PopupState
  | .select env p => resultState (selectFile env p s)
  | .refresh env => importPreviewData env s
  | .setOpts o => { s with optionsFrame := o }
  | .toggle => toggleShowPreview s

/-- A whole interaction history without an Import click. -/
def runSteps (steps : List FlowStep) (s : PopupState) : PopupState :=
  steps.foldl stepRun s

/-- The parse phase of `__import_preview_data` in isolation: the table the
refresh would obtain, or `none` when it aborts (silently or with the
skip-rows message).  Mirrors `importPreviewData` case for case. -/
def parseAttempt (env : Env) (path : String) (o : Option OptionsFrame) : Option Table :=
  match fileKind path with
  | .csv =>
    match o with
    | some (.csvFrame sepText naText) =>
      match sepLookup sepText with
      | some sep =>
        match env.readCsv path sep (naValue naText) with
        | .ok t => some t
        | .err => none
      | none => none
    | _ => none
  | .excel =>
    match o with
    | some (.excelFrame sheetText skipText naText _) =>
      match parseIntStr skipText with
      | none => none
      | some k =>
        match env.readExcel path sheetText k (naValue naText) with
        | .ok t => some t
        | .err => none
    | _ => none
  | .spss =>
    match env.readSpss path with
    | .ok t => some t
    | .err => none
  | .unknown => none

/-- A sequence of Refresh Preview clicks, each preceded by the user
editing the options frame to `oe.1`, under parser oracle `oe.2`. -/
def runAttempts (attempts : List (Option OptionsFrame × Env)) (s : PopupState) : PopupState :=
  attempts.foldl (fun st oe => importPreviewData oe.2 { st with optionsFrame := oe.1 }) s

/-- The table of the most recent attempt in the list that parses
successfully, starting from `init` (the table bound before the sequence). -/
def lastParsedFrom (path : String) (attempts : List (Option OptionsFrame × Env))
    (init : Option Table) : Option Table :=
  attempts.foldl
    (fun acc oe =>
      match parseAttempt oe.2 path oe.1 with
      | some t => some t
      | none => acc)
    init

/-- The table of the most recent successful attempt, if any. -/
def lastParsed (path : String) (attempts : List (Option OptionsFrame × Env)) : Option Table :=
  lastParsedFrom path attempts none

/-- Whether the refresh aborts because the external parser raised (the
non-skip-rows, non-message-box abort of the claim taxonomy): the option
frame matches the file kind, the getters succeed, and the oracle answers
`err`. -/
def externalParserRaises (env : Env) (path : String) (o : Option OptionsFrame) : Bool :=
  match fileKind path with
  | .csv =>
    match o with
    | some (.csvFrame sepText naText) =>
      match sepLookup sepText with
      | some sep =>
        match env.readCsv path sep (naValue naText) with
        | .ok _ => false
        | .err => true
      | none => false
    | _ => false
  | .excel =>
    match o with
    | some (.excelFrame sheetText skipText naText _) =>
      match parseIntStr skipText with
      | none => false
      | some k =>
        match env.readExcel path sheetText k (naValue naText) with
        | .ok _ => false
        | .err => true
    | _ => false
  | .spss =>
    match env.readSpss path with
    | .ok _ => false
    | .err => true
  | .unknown => false

/-! ## Concrete oracles and states used by witnesses and counterexamples -/

/-- A table used as a concrete parse result. -/
def tA : Table := ⟨["a"], [["1"]]⟩

/-- A second, distinct concrete table. -/
def tB : Table := ⟨["b"], [["2"]]⟩

/-- Oracle whose parsers all raise but whose workbook opens fine. -/
def trivEnv : Env :=
  ⟨fun _ _ _ => .err, fun _ _ _ _ => .err, fun _ => .err, fun _ => .ok ["Sheet1"]⟩

/-- Oracle whose workbook enumeration itself raises. -/
def raiseEnv : Env :=
  ⟨fun _ _ _ => .err, fun _ _ _ _ => .err, fun _ => .err, fun _ => .error ()⟩

/-- Oracle whose parsers all answer the table `tA`. -/
def envA : Env :=
  ⟨fun _ _ _ => .ok tA, fun _ _ _ _ => .ok tA, fun _ => .ok tA, fun _ => .ok ["Sheet1"]⟩

/-- Oracle whose parsers all answer the table `tB`. -/
def envB : Env :=
  ⟨fun _ _ _ => .ok tB, fun _ _ _ _ => .ok tB, fun _ => .ok tB, fun _ => .ok ["Sheet1"]⟩

/-! ## Helper lemmas -/

theorem importPreviewData_dataFrame (env : Env) (s : PopupState) :
    (importPreviewData env s).dataFrame = s.dataFrame := by
  unfold importPreviewData applySuccess
  repeat' split
  all_goals rfl

theorem importPreviewData_filepath (env : Env) (s : PopupState) :
    (importPreviewData env s).filepath = s.filepath := by
  unfold importPreviewData applySuccess
  repeat' split
  all_goals rfl

theorem selectFile_dataFrame (env : Env) (p : String) (s : PopupState) :
    (resultState (selectFile env p s)).dataFrame = s.dataFrame := by
  unfold selectFile
  by_cases hp : p = ""
  · simp [hp, resultState]
  · rw [if_neg hp]
    repeat' split
    all_goals simp [resultState, importPreviewData_dataFrame]
    all_goals split <;> rfl

theorem stepRun_dataFrame (s : PopupState) (st : FlowStep) :
    (stepRun s st).dataFrame = s.dataFrame := by
  cases st with
  | select env p => exact selectFile_dataFrame env p s
  | refresh env => exact importPreviewData_dataFrame env s
  | setOpts o => rfl
  | toggle => rfl

theorem runSteps_dataFrame (steps : List FlowStep) (s : PopupState) :
    (runSteps steps s).dataFrame = s.dataFrame := by
  induction steps generalizing s with
  | nil => rfl
  | cons st rest ih =>
    show (runSteps rest (stepRun s st)).dataFrame = s.dataFrame
    rw [ih, stepRun_dataFrame]

theorem importPreviewData_importBtn (env : Env) (s : PopupState) (path : String)
    (h : s.filepath = some path) :
    (importPreviewData env s).importBtn =
      (match parseAttempt env path s.optionsFrame with
       | some t => some t
       | none => s.importBtn) := by
  unfold importPreviewData parseAttempt
  rw [h]
  repeat' split
  all_goals simp_all [applySuccess]

theorem runAttempts_invariant (path : String)
    (attempts : List (Option OptionsFrame × Env)) (s : PopupState)
    (h : s.filepath = some path) :
    (runAttempts attempts s).filepath = some path ∧
    (runAttempts attempts s).importBtn = lastParsedFrom path attempts s.importBtn := by
  induction attempts generalizing s with
  | nil => exact ⟨h, rfl⟩
  | cons oe rest ih =>
    have hfp : ({ s with optionsFrame := oe.1 } : PopupState).filepath = some path := h
    have h1 : (importPreviewData oe.2 { s with optionsFrame := oe.1 }).filepath = some path := by
      rw [importPreviewData_filepath]; exact hfp
    have h2 := importPreviewData_importBtn oe.2 { s with optionsFrame := oe.1 } path hfp
    have := ih (importPreviewData oe.2 { s with optionsFrame := oe.1 }) h1
    refine ⟨this.1, ?_⟩
    show (runAttempts rest _).importBtn = lastParsedFrom path (oe :: rest) s.importBtn
    rw [this.2, h2]
    rfl

theorem lastParsedFrom_shift (path : String)
    (attempts : List (Option OptionsFrame × Env)) (init : Option Table) :
    lastParsedFrom path attempts init =
      (match lastParsedFrom path attempts none with
       | some t => some t
       | none => init) := by
  induction attempts generalizing init with
  | nil => rfl
  | cons oe rest ih =>
    show lastParsedFrom path rest _ = _
    rw [ih]
    conv_rhs =>
      rw [show lastParsedFrom path (oe :: rest) none
            = lastParsedFrom path rest
                (match parseAttempt oe.2 path oe.1 with
                 | some t => some t
                 | none => none) from rfl]
      rw [ih]
    cases hl : lastParsedFrom path rest none <;>
      cases hp : parseAttempt oe.2 path oe.1 <;> simp [hp]

theorem endswith_iff (s suf : String) :
    endswith s suf = true ↔ suf.data <:+ s.data := by
  simp [endswith, List.isSuffixOf_iff_suffix]

theorem endswith_excl (p a b : String)
    (hab : a.data.isSuffixOf b.data = false)
    (hba : b.data.isSuffixOf a.data = false)
    (h : endswith p a = true) : endswith p b = false := by
  rw [endswith_iff] at h
  by_contra hc
  rw [Bool.not_eq_false, endswith_iff] at hc
  rcases List.suffix_or_suffix_of_suffix h hc with h' | h' <;>
    rw [← List.isSuffixOf_iff_suffix] at h' <;> simp_all

/-! ## Claim theorems -/

/-- C7: when the user cancels the file picker (empty selection),
`selectFile` performs no state transition and reports no error: the
handler returns with the popup state — file path, options frame, preview
table, errors — exactly as it was, in whatever state the flow was in. -/
theorem c7_cancel_noop (env : Env) (s : PopupState) :
    selectFile env "" s = .ok s := by
  unfold selectFile
  rw [if_pos rfl]

/-- C9: the "show preview" checkbutton only flips its variable: toggling
it leaves the displayed preview table, the table bound to the Import
button, and everything else unchanged; toggling off and back on restores
the state (hence the very same preview table) exactly, and a commit after
the double toggle returns the same table as before it. -/
theorem c9_toggle_preview_frame (s : PopupState) :
    toggleShowPreview (toggleShowPreview s) = s ∧
    (toggleShowPreview s).preview = s.preview ∧
    (toggleShowPreview s).importBtn = s.importBtn ∧
    (commit (toggleShowPreview s)).dataFrame = (commit s).dataFrame := by
  refine ⟨by simp [toggleShowPreview], rfl, rfl, ?_⟩
  unfold commit
  cases hb : s.importBtn <;> simp [toggleShowPreview, hb]

/-- C10: file-kind determination is a case-sensitive suffix test on the
whole path: the kind is CSV exactly when the path ends with the literal
lowercase ".csv" (likewise ".xlsx" for EXCEL, ".sav" for SPSS); an
uppercase variant such as "a.CSV" is unsupported, while "archive.tar.csv"
is CSV. -/
theorem c10_suffix_kind (p : String) :
    (fileKind p = .csv ↔ endswith p ".csv" = true) ∧
    (fileKind p = .excel ↔ endswith p ".xlsx" = true) ∧
    (fileKind p = .spss ↔ endswith p ".sav" = true) ∧
    fileKind "a.CSV" = .unknown ∧
    fileKind "archive.tar.csv" = .csv := by
  have hxc : endswith p ".xlsx" = true → endswith p ".csv" = false :=
    endswith_excl p ".xlsx" ".csv" (by decide) (by decide)
  have hsc : endswith p ".sav" = true → endswith p ".csv" = false :=
    endswith_excl p ".sav" ".csv" (by decide) (by decide)
  have hsx : endswith p ".sav" = true → endswith p ".xlsx" = false :=
    endswith_excl p ".sav" ".xlsx" (by decide) (by decide)
  refine ⟨?_, ?_, ?_, by decide, by decide⟩ <;>
    (cases hc : endswith p ".csv" <;>
     cases hx : endswith p ".xlsx" <;>
     cases hs : endswith p ".sav" <;>
      first
        | (rw [hxc hx] at hc; exact absurd hc Bool.false_ne_true)
        | (rw [hsc hs] at hc; exact absurd hc Bool.false_ne_true)
        | (rw [hsx hs] at hx; exact absurd hx Bool.false_ne_true)
        | simp [fileKind, hc, hx, hs])

/-- C8: a run of the import flow that closes without an Import click —
any interaction history of file selections, refreshes, option edits and
preview toggles — leaves the returned data frame absent, the host shell's
display is then left completely unchanged, and the host replaces its
displayed table exactly when the result is non-absent. -/
theorem c8_cancel_absent_result (steps : List FlowStep) (hst : HostState) (t : Table) :
    (runSteps steps initialState).dataFrame = none ∧
    openImportWindow ((runSteps steps initialState).dataFrame) hst = hst ∧
    openImportWindow (some t) hst = { displayed := t } := by
  have hd : (runSteps steps initialState).dataFrame = none := runSteps_dataFrame steps initialState
  exact ⟨hd, by rw [hd]; rfl, rfl⟩

/-- C5: over any sequence of Refresh Preview clicks (each under the
options then in force), of which at least one parsed successfully, a
subsequent Import click stores exactly the table produced by the most
recent successful refresh — never a stale one — because each successful
refresh rebinds the Import button to the table it just parsed. -/
theorem c5_commit_last_parsed (s₀ : PopupState) (path : String)
    (attempts : List (Option OptionsFrame × Env)) (t : Table)
    (h1 : s₀.filepath = some path)
    (h2 : lastParsed path attempts = some t) :
    (commit (runAttempts attempts s₀)).dataFrame = some t := by
  have hinv := runAttempts_invariant path attempts s₀ h1
  have hbtn : (runAttempts attempts s₀).importBtn = some t := by
    rw [hinv.2, lastParsedFrom_shift]
    unfold lastParsed at h2
    rw [h2]
  unfold commit
  rw [hbtn]

/-- Witness for C5: two refreshes both succeed, the first with table `tA`,
the second with table `tB`; committing afterwards yields `tB`. -/
theorem c5_commit_last_parsed_witness :
    lastParsed "/d.csv"
        [(some (.csvFrame "," "Default"), envA), (some (.csvFrame "," "Default"), envB)]
      = some tB ∧
    (commit (runAttempts
        [(some (.csvFrame "," "Default"), envA), (some (.csvFrame "," "Default"), envB)]
        { initialState with filepath := some "/d.csv" })).dataFrame = some tB :=
  ⟨by decide,
   c5_commit_last_parsed { initialState with filepath := some "/d.csv" } "/d.csv"
     [(some (.csvFrame "," "Default"), envA), (some (.csvFrame "," "Default"), envB)]
     tB rfl (by decide)⟩

/-- C6: when the external parser raises (any failure other than the
skip-rows validation message), the refresh aborts silently: the popup
state after `refreshPreview` is exactly the state before it — no error
text, no partial preview, no change to the committed-table binding. -/
theorem c6_parser_failure_silent (env : Env) (s : PopupState) (path : String)
    (h1 : s.filepath = some path)
    (h2 : externalParserRaises env path s.optionsFrame = true) :
    importPreviewData env s = s := by
  unfold externalParserRaises at h2
  unfold importPreviewData
  rw [h1]
  repeat' split at h2
  all_goals simp_all

/-- Witness for C6: a CSV refresh whose `pd.read_csv` raises leaves the
concrete state untouched. -/
theorem c6_parser_failure_silent_witness :
    importPreviewData trivEnv
        { initialState with filepath := some "/d.csv"
                            optionsFrame := some (.csvFrame "," "Default") }
      = { initialState with filepath := some "/d.csv"
                            optionsFrame := some (.csvFrame "," "Default") } :=
  c6_parser_failure_silent trivEnv
    { initialState with filepath := some "/d.csv"
                        optionsFrame := some (.csvFrame "," "Default") }
    "/d.csv" rfl (by decide)

/-- A popup state in which a CSV file was already chosen and its options
frame is packed, used to exercise re-selection. -/
def c1Prior : PopupState :=
  { initialState with filepath := some "/tmp/old.csv"
                      optionsFrame := some (.csvFrame "," "Default")
                      optionsPacked := true }

/-- C1 counterexample: selecting the unsupported file "/tmp/new.txt" from
a state holding "/tmp/old.csv" does report the error, but the stored file
path IS updated to the new path and the existing options frame IS
forgotten (unpacked) — prior state is not left exactly as it was. -/
theorem c1_counterexample :
    (resultState (selectFile trivEnv "/tmp/new.txt" c1Prior)).errors = [unsupportedMsg] ∧
    c1Prior.filepath = some "/tmp/old.csv" ∧
    (resultState (selectFile trivEnv "/tmp/new.txt" c1Prior)).filepath = some "/tmp/new.txt" ∧
    c1Prior.optionsPacked = true ∧
    (resultState (selectFile trivEnv "/tmp/new.txt" c1Prior)).optionsPacked = false := by
  decide

/-- C1 amended: for a chosen file of unrecognized extension, `selectFile`
reports the unsupported-file-type error and builds no new options, and the
preview table, Import-button binding, options frame object and result are
unchanged — but the stored file path is updated to the unsupported file
and any prior options frame is hidden (forgotten) before the check. -/
theorem c1_unsupported_reports_error (env : Env) (picked : String) (s : PopupState)
    (h1 : picked ≠ "") (h2 : fileKind picked = .unknown) :
    selectFile env picked s = .ok
      { s with filepath := some picked
               optionsPacked := if s.optionsFrame.isSome then false else s.optionsPacked
               errors := s.errors ++ [unsupportedMsg] } := by
  unfold selectFile
  rw [if_neg h1]
  simp only [h2]
  by_cases ho : s.optionsFrame.isSome <;> simp [ho]

/-- Witness for C1 amended at the concrete re-selection of "/tmp/new.txt". -/
theorem c1_unsupported_reports_error_witness :
    ("/tmp/new.txt" : String) ≠ "" ∧ fileKind "/tmp/new.txt" = .unknown ∧
    selectFile trivEnv "/tmp/new.txt" c1Prior = .ok
      { c1Prior with
          filepath := some "/tmp/new.txt"
          optionsPacked := if c1Prior.optionsFrame.isSome then false else c1Prior.optionsPacked
          errors := c1Prior.errors ++ [unsupportedMsg] } :=
  ⟨by decide, by decide,
   c1_unsupported_reports_error trivEnv "/tmp/new.txt" c1Prior (by decide) (by decide)⟩

/-- C2 counterexample: choosing a recognized ".xlsx" file whose workbook
cannot be opened makes `pd.ExcelFile(...).sheet_names` raise outside any
`try`, and the exception escapes the `selectFile` handler uncaught. -/
theorem c2_counterexample :
    isRaised (selectFile raiseEnv "/tmp/a.xlsx" initialState) = true := by
  decide

/-- C2 amended: `selectFile` completes without an uncaught exception in
every case EXCEPT a recognized .xlsx whose sheet-name enumeration fails
(or yields an empty sheet list): whenever the chosen file is not EXCEL,
or the picker was cancelled, or the workbook enumerates at least one
sheet, no exception escapes; refreshPreview wraps every parser call in
try/except and never raises. -/
theorem c2_select_no_raise (env : Env) (picked : String) (s : PopupState)
    (h : fileKind picked = .excel → picked ≠ "" →
         ∃ h0 t0, env.sheetNames picked = .ok (h0 :: t0)) :
    isRaised (selectFile env picked s) = false := by
  unfold selectFile
  by_cases hp : picked = ""
  · rw [if_pos hp]; rfl
  · rw [if_neg hp]
    cases hk : fileKind picked with
    | csv => rfl
    | spss => rfl
    | unknown => rfl
    | excel =>
      obtain ⟨h0, t0, hs⟩ := h hk hp
      simp only [hs]
      rfl

/-- Witness for C2 amended: an .xlsx file whose workbook opens with one
sheet is selected without any exception escaping. -/
theorem c2_select_no_raise_witness :
    isRaised (selectFile envA "/tmp/a.xlsx" initialState) = false :=
  c2_select_no_raise envA "/tmp/a.xlsx" initialState
    (fun _ _ => ⟨"Sheet1", [], rfl⟩)

/-- An EXCEL popup state whose skip-rows entry holds "-1". -/
def c3Prior : PopupState :=
  { initialState with filepath := some "/tmp/book.xlsx"
                      optionsFrame := some (.excelFrame "Sheet1" "-1" "Default" ["Sheet1"])
                      optionsPacked := true }

/-- C3 counterexample: "-1" is not a non-negative integer, yet the refresh
does NOT report "Skip rows must be a number": `IntVar.get` parses the
negative value successfully, the parser is invoked and its failure is
swallowed, leaving the state unchanged with no error ever surfaced. -/
theorem c3_counterexample :
    parseIntStr "-1" = some (-1) ∧
    importPreviewData trivEnv c3Prior = c3Prior ∧
    c3Prior.errors = [] := by
  decide

/-- C3 amended: for an EXCEL refresh whose skip-rows text is not parseable
as an integer AT ALL (any sign), the controller reports "Skip rows must
be a number." and aborts, leaving the preview and the Import-button
binding unchanged; a negative integer instead passes this validation and
reaches the parser. -/
theorem c3_skiprows_error (env : Env) (s : PopupState)
    (path sh sk na : String) (sheets : List String)
    (h1 : s.filepath = some path)
    (h2 : fileKind path = .excel)
    (h3 : s.optionsFrame = some (.excelFrame sh sk na sheets))
    (h4 : parseIntStr sk = none) :
    importPreviewData env s = { s with errors := s.errors ++ [skipRowsMsg] } := by
  unfold importPreviewData
  rw [h1]
  simp [h2, h3, h4]

/-- An EXCEL popup state whose skip-rows entry holds "abc". -/
def c3AbcState : PopupState :=
  { initialState with filepath := some "/tmp/book.xlsx"
                      optionsFrame := some (.excelFrame "Sheet1" "abc" "Default" ["Sheet1"])
                      optionsPacked := true }

/-- Witness for C3 amended at skip-rows text "abc". -/
theorem c3_skiprows_error_witness :
    parseIntStr "abc" = none ∧
    importPreviewData trivEnv c3AbcState
      = { c3AbcState with errors := c3AbcState.errors ++ [skipRowsMsg] } :=
  ⟨by decide,
   c3_skiprows_error trivEnv c3AbcState "/tmp/book.xlsx" "Sheet1" "abc" "Default"
     ["Sheet1"] rfl (by decide) rfl (by decide)⟩

/-- A completed flow on "/tmp.d/sales.csv": select, parse succeeds, commit. -/
def c4Flow : PopupState :=
  commit (resultState (selectFile envA "/tmp.d/sales.csv" initialState))

/-- C4 counterexample: committing the file "/tmp.d/sales.csv" returns the
name "tmp" — the regex searches the WHOLE path lazily, matching inside
the directory component — while the base name preceding its first dot is
"sales". -/
theorem c4_counterexample :
    (showResult c4Flow).1 = some tA ∧
    (showResult c4Flow).2 = some "tmp" ∧
    specBaseDotName "/tmp.d/sales.csv" = some "sales" ∧
    (some "tmp" : Option String) ≠ some "sales" := by
  decide

/-- C4 amended: the name returned by a completed flow is the leftmost,
lazily shortest run of characters from the class space/word/hyphen that
is immediately followed by a literal dot, searched over the WHOLE path
(absent when no such match exists) — in particular "/tmp/sales_Q1.csv"
does yield "sales_Q1". -/
theorem c4_commit_name (s : PopupState) (p : String) (h : s.filepath = some p) :
    (showResult (commit s)).2 = extractName p ∧
    extractName "/tmp/sales_Q1.csv" = some "sales_Q1" := by
  constructor
  · unfold showResult dataName commit
    cases hb : s.importBtn <;> simp [h]
  · decide

/-- A committed state holding "/tmp/sales_Q1.csv". -/
def c4SalesState : PopupState :=
  { initialState with filepath := some "/tmp/sales_Q1.csv", importBtn := some tA }

/-- Witness for C4 amended at the spec's own example path. -/
theorem c4_commit_name_witness :
    (showResult (commit c4SalesState)).2 = extractName "/tmp/sales_Q1.csv" ∧
    extractName "/tmp/sales_Q1.csv" = some "sales_Q1" :=
  c4_commit_name c4SalesState "/tmp/sales_Q1.csv" rfl

end DataImport
